import Mathlib

/-!
Shallow embedding of `src/4_behavioral/02_strategy/starter.py`
(the Task Processing Context: `WorkflowTask`, the three `TaskProcessor`
strategies, and `TaskManager`).

Modelling conventions:
* Wall-clock timestamps and durations are rationals (`ℚ`).  A call such as
  `datetime.now()` or `time.time()` reads the current model clock; `time.sleep(d)`
  advances the model clock by exactly `d`, and all other statements take zero
  model time.  Functions that read or advance the clock take it as an explicit
  argument and return the advanced clock.
* Python dictionary values are dynamically typed, so the result dictionary is a
  `List (String × PyVal)` where `PyVal` is a sum of the value shapes that
  actually occur (`str`, `bool`, `float`, `None`).  This keeps faithful the fact
  that `StandardTaskProcessor.validate_task` can return the string `''` rather
  than a boolean (Python `and` returns its first operand when it is falsy).
* The mutable `TaskTimer` mixin state (`start_time` / `end_time`) is threaded
  explicitly through `process_task`; a freshly constructed processor carries
  `TaskTimer.init` (both fields `None`).
* `raise ValueError(...)` is modelled with `Except String`.
-/

/-- Values that can appear in the Python result dictionaries of this program:
strings, booleans, floats (modelled as `ℚ`) and `None`. -/
inductive PyVal : Type
  | str (s : String)
  | bool (b : Bool)
  | float (q : ℚ)
  | pyNone
deriving DecidableEq

/-- `class TaskPriority(Enum)` from the source. -/
inductive TaskPriority : Type
  | low
  | medium
  | high
  | urgent
deriving DecidableEq

/-- The `.value` string of each `TaskPriority` member. -/
def TaskPriority.value : TaskPriority → String
  | .low => "low"
  | .medium => "medium"
  | .high => "high"
  | .urgent => "urgent"

/-- `class Strategies(Enum)` from the source (declaration order
STANDARD, BACKGROUND, URGENT). -/
inductive Strategies : Type
  | standard
  | background
  | urgent
deriving DecidableEq

/-- The `.value` string of each `Strategies` member. -/
def Strategies.value : Strategies → String
  | .standard => "standard"
  | .background => "background"
  | .urgent => "urgent"

/-- `Strategies.get_values()`: the `.value` of every member, in declaration
order. -/
def Strategies.get_values : List String :=
  [Strategies.standard.value, Strategies.background.value, Strategies.urgent.value]

/-- `class WorkflowTask`: `title`, `priority`, `description`, `created_at`
(set at construction), `completed_at` (`None` until completion). -/
structure WorkflowTask : Type where
  title : String
  priority : TaskPriority
  description : String
  created_at : ℚ
  completed_at : Option ℚ
deriving DecidableEq

/-- `WorkflowTask.__init__`: stores the three arguments, sets `created_at` to
the current time (`now`) and `completed_at` to `None`. -/
def WorkflowTask.init (title : String) (priority : TaskPriority)
    (description : String) (now : ℚ) : WorkflowTask :=
  { title := title
    priority := priority
    description := description
    created_at := now
    completed_at := Option.none }

/-- `WorkflowTask.mark_completed`: unconditionally sets `completed_at` to the
current time. -/
def WorkflowTask.mark_completed (t : WorkflowTask) (now : ℚ) : WorkflowTask :=
  { t with completed_at := some now }

/-- `WorkflowTask.get_status`: `'completed'` if `completed_at` is set (a
`datetime` is always truthy), otherwise `None`. -/
def WorkflowTask.get_status (t : WorkflowTask) : Option String :=
  match t.completed_at with
  | some _ => some "completed"
  | Option.none => Option.none

/-- Convert a `get_status` result to the `PyVal` stored in the result dict. -/
def statusToPy : Option String → PyVal
  | some s => PyVal.str s
  | Option.none => PyVal.pyNone

/-- `class TaskTimer`: mutable `start_time` / `end_time`, both `None` at
construction. -/
structure TaskTimer : Type where
  start_time : Option ℚ
  end_time : Option ℚ
deriving DecidableEq

/-- `TaskTimer.__init__`: both fields `None`. -/
def TaskTimer.init : TaskTimer :=
  { start_time := Option.none, end_time := Option.none }

/-- `TaskTimer.start_timer`: `self.start_time = time.time()`. -/
def TaskTimer.start_timer (t : TaskTimer) (now : ℚ) : TaskTimer :=
  { t with start_time := some now }

/-- `TaskTimer.end_timer`: `self.end_time = time.time()`. -/
def TaskTimer.end_timer (t : TaskTimer) (now : ℚ) : TaskTimer :=
  { t with end_time := some now }

/-- `TaskTimer.get_processing_time`: if `end_time` is `None`, call
`end_timer()` first; then return `end_time - start_time`.  The `Option.none`
result models the `TypeError` Python would raise when `start_time` is still
`None`; every call site in the source runs `start_timer` first, so that branch
is unreachable there. -/
def TaskTimer.get_processing_time (t : TaskTimer) (now : ℚ) :
    Option ℚ × TaskTimer :=
  let t1 := match t.end_time with
    | Option.none => t.end_timer now
    | some _ => t
  match t1.end_time, t1.start_time with
  | some e, some s => (some (e - s), t1)
  | _, _ => (Option.none, t1)

/-- `UrgentTaskProcessor.__str__`: `Strategies.URGENT.value`. -/
def UrgentTaskProcessor.strategy_name : String := Strategies.urgent.value

/-- `UrgentTaskProcessor.validate_task`:
`bool(task.priority == TaskPriority.URGENT and task.description)` —
a nonempty string is truthy. -/
def UrgentTaskProcessor.validate_task (task : WorkflowTask) : Bool :=
  decide (task.priority = TaskPriority.urgent) && decide (task.description ≠ "")

/-- `UrgentTaskProcessor.process_task`: start the timer, validate, mark the
task completed (no sleep), and return the result dict.  Returns
(result dict, updated task, clock after the call, updated timer state). -/
def UrgentTaskProcessor.process_task (self : TaskTimer) (task : WorkflowTask)
    (clock : ℚ) : List (String × PyVal) × WorkflowTask × ℚ × TaskTimer :=
  let self := self.start_timer clock
  let validation_passed := UrgentTaskProcessor.validate_task task
  let task := task.mark_completed clock
  let pt := self.get_processing_time clock
  ([("status", statusToPy task.get_status),
    ("processing_time", PyVal.float (pt.1.getD 0)),
    ("strategy_used", PyVal.str UrgentTaskProcessor.strategy_name),
    ("validation_passed", PyVal.bool validation_passed)],
   task, clock, pt.2)

/-- `StandardTaskProcessor.__str__`: `Strategies.STANDARD.value`. -/
def StandardTaskProcessor.strategy_name : String := Strategies.standard.value

/-- `StandardTaskProcessor.validate_task`:
`return task.title and len(task.title) >= 3`.  Python `and` returns the first
operand when it is falsy, so an empty title yields the string `''`, not a
boolean. -/
def StandardTaskProcessor.validate_task (task : WorkflowTask) : PyVal :=
  if task.title = "" then PyVal.str task.title
  else PyVal.bool (decide (3 ≤ task.title.length))

/-- `StandardTaskProcessor.process_task`: start the timer, `time.sleep(1)`
(the model clock advances by 1), validate, mark completed, return the dict. -/
def StandardTaskProcessor.process_task (self : TaskTimer) (task : WorkflowTask)
    (clock : ℚ) : List (String × PyVal) × WorkflowTask × ℚ × TaskTimer :=
  let self := self.start_timer clock
  let clock := clock + 1
  let validation_passed := StandardTaskProcessor.validate_task task
  let task := task.mark_completed clock
  let pt := self.get_processing_time clock
  ([("status", statusToPy task.get_status),
    ("processing_time", PyVal.float (pt.1.getD 0)),
    ("strategy_used", PyVal.str StandardTaskProcessor.strategy_name),
    ("validation_passed", validation_passed)],
   task, clock, pt.2)

/-- `BackgroundTaskProcessor.__str__`: `Strategies.BACKGROUND.value`. -/
def BackgroundTaskProcessor.strategy_name : String := Strategies.background.value

/-- `BackgroundTaskProcessor.validate_task`:
`return task.priority != TaskPriority.URGENT`. -/
def BackgroundTaskProcessor.validate_task (task : WorkflowTask) : Bool :=
  decide (task.priority ≠ TaskPriority.urgent)

/-- `BackgroundTaskProcessor.process_task`: start the timer, validate,
`time.sleep(0.1)` (clock advances by 1/10), mark completed, return the dict. -/
def BackgroundTaskProcessor.process_task (self : TaskTimer) (task : WorkflowTask)
    (clock : ℚ) : List (String × PyVal) × WorkflowTask × ℚ × TaskTimer :=
  let self := self.start_timer clock
  let validation_passed := BackgroundTaskProcessor.validate_task task
  let clock := clock + 1 / 10
  let task := task.mark_completed clock
  let pt := self.get_processing_time clock
  ([("status", statusToPy task.get_status),
    ("processing_time", PyVal.float (pt.1.getD 0)),
    ("strategy_used", PyVal.str BackgroundTaskProcessor.strategy_name),
    ("validation_passed", PyVal.bool validation_passed)],
   task, clock, pt.2)

/-- Enumeration of the three concrete `TaskProcessor` subclasses. -/
inductive Variant : Type
  | urgent
  | standard
  | background
deriving DecidableEq

/-- Dispatch `process_task` over the three concrete processor classes. -/
def Variant.process_task :
    Variant → TaskTimer → WorkflowTask → ℚ →
      List (String × PyVal) × WorkflowTask × ℚ × TaskTimer
  | .urgent => UrgentTaskProcessor.process_task
  | .standard => StandardTaskProcessor.process_task
  | .background => BackgroundTaskProcessor.process_task

/-- `str(self)` of each concrete processor class. -/
def Variant.strategy_name : Variant → String
  | .urgent => UrgentTaskProcessor.strategy_name
  | .standard => StandardTaskProcessor.strategy_name
  | .background => BackgroundTaskProcessor.strategy_name

/-- A `TaskProcessor` object as seen by `TaskManager`: its `str(self)` name,
its mutable inherited `TaskTimer` state, and its `process_task` behaviour
(duck typing: any object with this shape can be stored as a strategy). -/
structure TaskProcessorObj : Type where
  name : String
  timer : TaskTimer
  process_task : TaskTimer → WorkflowTask → ℚ →
    List (String × PyVal) × WorkflowTask × ℚ × TaskTimer

/-- A freshly constructed instance of one of the three concrete classes
(`__init__` initialises the inherited `TaskTimer` to two `None` fields). -/
def Variant.new (v : Variant) : TaskProcessorObj :=
  { name := v.strategy_name
    timer := TaskTimer.init
    process_task := v.process_task }

/-- `class TaskManager`: holds the optional current strategy. -/
structure TaskManager : Type where
  strategy : Option TaskProcessorObj

/-- `TaskManager.__init__(strategy=None)`: stores the argument. -/
def TaskManager.init (strategy : Option TaskProcessorObj) : TaskManager :=
  { strategy := strategy }

/-- `TaskManager.set_strategy`: replaces the strategy unconditionally. -/
def TaskManager.set_strategy (m : TaskManager) (strategy : TaskProcessorObj) :
    TaskManager :=
  { m with strategy := some strategy }

/-- `TaskManager.execute_task`: raises `ValueError('No strategy set')` when no
strategy is stored (a stored processor object is always truthy) or when
`str(self.strategy)` is not in `Strategies.get_values()`; otherwise returns
`self.strategy.process_task(task)` unchanged.  The tuple also carries the
updated task, clock, and manager (the stored object's timer mutates in place,
so the returned manager holds the same strategy with its timer updated). -/
def TaskManager.execute_task (m : TaskManager) (task : WorkflowTask)
    (clock : ℚ) :
    Except String (List (String × PyVal)) × WorkflowTask × ℚ × TaskManager :=
  match m.strategy with
  | Option.none => (Except.error "No strategy set", task, clock, m)
  | some p =>
    if p.name ∈ Strategies.get_values then
      let r := p.process_task p.timer task clock
      (Except.ok r.1, r.2.1, r.2.2.1,
        { m with strategy := some { p with timer := r.2.2.2 } })
    else
      (Except.error "No strategy set", task, clock, m)

/-- Operations a caller can perform on a `WorkflowTask` (each tagged with the
model clock at which it runs).  `get_status` is read-only and omitted. -/
inductive TaskOp : Type
  | mark_completed (now : ℚ)
  | process (v : Variant) (self : TaskTimer) (clock : ℚ)

/-- Apply a single operation to a task. -/
def WorkflowTask.applyOp (t : WorkflowTask) : TaskOp → WorkflowTask
  | .mark_completed now => t.mark_completed now
  | .process v self clock => (v.process_task self t clock).2.1

/-- Apply a sequence of operations to a task, left to right. -/
def WorkflowTask.runOps (t : WorkflowTask) : List TaskOp → WorkflowTask
  | [] => t
  | op :: rest => (t.applyOp op).runOps rest

/-- Operations a caller can perform on a `TaskManager` after construction. -/
inductive ManagerOp : Type
  | set_strategy (p : TaskProcessorObj)
  | execute_task (task : WorkflowTask) (clock : ℚ)

/-- Apply a single operation to a manager. -/
def TaskManager.applyOp (m : TaskManager) : ManagerOp → TaskManager
  | .set_strategy p => m.set_strategy p
  | .execute_task task clock => (m.execute_task task clock).2.2.2

/-- Apply a sequence of manager operations, left to right. -/
def TaskManager.runOps (m : TaskManager) : List ManagerOp → TaskManager
  | [] => m
  | op :: rest => (m.applyOp op).runOps rest

-- Helper lemmas shared by several claim proofs.

theorem lookup_status (a b c d : PyVal) :
    List.lookup "status"
      [("status", a), ("processing_time", b), ("strategy_used", c),
        ("validation_passed", d)] = some a := rfl

theorem lookup_processing_time (a b c d : PyVal) :
    List.lookup "processing_time"
      [("status", a), ("processing_time", b), ("strategy_used", c),
        ("validation_passed", d)] = some b := rfl

theorem lookup_strategy_used (a b c d : PyVal) :
    List.lookup "strategy_used"
      [("status", a), ("processing_time", b), ("strategy_used", c),
        ("validation_passed", d)] = some c := rfl

theorem lookup_validation_passed (a b c d : PyVal) :
    List.lookup "validation_passed"
      [("status", a), ("processing_time", b), ("strategy_used", c),
        ("validation_passed", d)] = some d := rfl

/-- The doctest scenario: the urgent task from the module docstring,
processed by a fresh `UrgentTaskProcessor`, yields the expected result
dictionary. -/
theorem doctest_urgent_scenario :
    (UrgentTaskProcessor.process_task TaskTimer.init
      (WorkflowTask.init "Security breach" TaskPriority.urgent
        "Critical fix needed" 0) 0).1 =
    [("status", PyVal.str "completed"), ("processing_time", PyVal.float 0),
      ("strategy_used", PyVal.str "urgent"),
      ("validation_passed", PyVal.bool true)] := by
  simp [UrgentTaskProcessor.process_task, UrgentTaskProcessor.validate_task,
    UrgentTaskProcessor.strategy_name, Strategies.value, TaskTimer.init,
    TaskTimer.start_timer, TaskTimer.end_timer, TaskTimer.get_processing_time,
    WorkflowTask.init, WorkflowTask.mark_completed, WorkflowTask.get_status,
    statusToPy]

/-- C1: for every processor variant, timer state, task and clock, after
`process_task` returns, the task's `get_status()` is `'completed'` and the
result dictionary's `status` entry is the string `'completed'`, regardless of
whether the variant's validation predicate passed. -/
theorem process_task_always_completed (v : Variant) (tm : TaskTimer)
    (task : WorkflowTask) (c : ℚ) :
    ((v.process_task tm task c).2.1).get_status = some "completed" ∧
    List.lookup "status" (v.process_task tm task c).1
      = some (PyVal.str "completed") := by
  cases v <;> exact ⟨rfl, rfl⟩

/-- C3: the Urgent variant's result has `validation_passed` equal to the
boolean `True` exactly when the task's priority is URGENT and its description
is non-empty. -/
theorem urgent_validation_iff (tm : TaskTimer) (task : WorkflowTask) (c : ℚ) :
    List.lookup "validation_passed"
        (UrgentTaskProcessor.process_task tm task c).1
      = some (PyVal.bool true) ↔
    task.priority = TaskPriority.urgent ∧ task.description ≠ "" := by
  have h : List.lookup "validation_passed"
      (UrgentTaskProcessor.process_task tm task c).1
      = some (PyVal.bool (UrgentTaskProcessor.validate_task task)) := rfl
  rw [h]
  simp [UrgentTaskProcessor.validate_task]

/-- Witness for C3 at the doctest's urgent task. -/
theorem urgent_validation_iff_witness :
    List.lookup "validation_passed"
      (UrgentTaskProcessor.process_task TaskTimer.init
        (WorkflowTask.init "Security breach" TaskPriority.urgent
          "Critical fix needed" 0) 0).1
      = some (PyVal.bool true) :=
  (urgent_validation_iff TaskTimer.init _ 0).mpr ⟨rfl, by decide⟩

/-- C4 counterexample: for the empty title (length 0 < 3), the Standard
variant's `validation_passed` entry is the string `''` (Python `and` returned
the falsy title itself), which is not the boolean `False`. -/
theorem standard_validation_empty_title_value :
    List.lookup "validation_passed"
      (StandardTaskProcessor.process_task TaskTimer.init
        (WorkflowTask.init "" TaskPriority.medium "x" 0) 0).1
      = some (PyVal.str "") ∧ PyVal.str "" ≠ PyVal.bool false :=
  ⟨rfl, by decide⟩

/-- C4 amended: for a non-empty title the Standard variant's
`validation_passed` is the boolean `len(title) >= 3` (so `False` for length
< 3 and `True` for length ≥ 3); for the empty title it is the empty string,
a falsy value but not a boolean. -/
theorem standard_validation_title_length (tm : TaskTimer) (task : WorkflowTask)
    (c : ℚ) :
    (task.title ≠ "" →
      List.lookup "validation_passed"
          (StandardTaskProcessor.process_task tm task c).1
        = some (PyVal.bool (decide (3 ≤ task.title.length)))) ∧
    (task.title = "" →
      List.lookup "validation_passed"
          (StandardTaskProcessor.process_task tm task c).1
        = some (PyVal.str "")) := by
  have h : List.lookup "validation_passed"
      (StandardTaskProcessor.process_task tm task c).1
      = some (StandardTaskProcessor.validate_task task) := rfl
  constructor
  · intro hne
    rw [h]
    simp [StandardTaskProcessor.validate_task, hne]
  · intro he
    rw [h]
    simp [StandardTaskProcessor.validate_task, he]

/-- Witness for C4 (amended) at the scenario task with title `"AB"`. -/
theorem standard_validation_title_length_witness :
    List.lookup "validation_passed"
      (StandardTaskProcessor.process_task TaskTimer.init
        (WorkflowTask.init "AB" TaskPriority.medium "x" 0) 0).1
      = some (PyVal.bool false) :=
  (standard_validation_title_length TaskTimer.init
    (WorkflowTask.init "AB" TaskPriority.medium "x" 0) 0).1 (by decide)

/-- C5 counterexample: a second `mark_completed` call is a subsequent
operation that changes an already-set `completed_at` (from time 1 to
time 2). -/
theorem second_mark_completed_changes_timestamp :
    ((WorkflowTask.init "Fix database bug" TaskPriority.high
        "Bug in user login" 0).mark_completed 1).completed_at = some 1 ∧
    (((WorkflowTask.init "Fix database bug" TaskPriority.high
        "Bug in user login" 0).mark_completed 1).mark_completed 2).completed_at
      = some 2 ∧
    some (1 : ℚ) ≠ some (2 : ℚ) := by
  refine ⟨rfl, rfl, ?_⟩
  norm_num

/-- Every task operation leaves the task with `completed_at` set (both
`mark_completed` and every variant's `process_task` end by marking the
task). -/
theorem applyOp_completed_isSome (t : WorkflowTask) (op : TaskOp) :
    ((t.applyOp op).completed_at).isSome = true := by
  cases op with
  | mark_completed now => rfl
  | process v self clock => cases v <;> rfl

/-- C5 amended: once `completed_at` is set it is never cleared — after any
further sequence of operations it is still set (a one-way transition from
not-completed to completed) — though a later `mark_completed` (directly or
inside `process_task`) may overwrite the stored timestamp. -/
theorem completed_at_never_cleared (t : WorkflowTask)
    (h : (t.completed_at).isSome = true) (ops : List TaskOp) :
    (((t.runOps ops)).completed_at).isSome = true := by
  induction ops generalizing t with
  | nil => exact h
  | cons op rest ih => exact ih _ (applyOp_completed_isSome t op)

/-- Witness for C5 (amended) on a concrete completed task and trace. -/
theorem completed_at_never_cleared_witness :
    ((((WorkflowTask.init "t" TaskPriority.low "" 0).mark_completed 1).runOps
      [TaskOp.mark_completed 2,
        TaskOp.process Variant.standard TaskTimer.init 3]).completed_at).isSome
      = true :=
  completed_at_never_cleared
    ((WorkflowTask.init "t" TaskPriority.low "" 0).mark_completed 1) rfl
    [TaskOp.mark_completed 2, TaskOp.process Variant.standard TaskTimer.init 3]

/-- C6: `mark_completed` never raises (it is a total function); calling it
twice overwrites `completed_at` with the second, later timestamp. -/
theorem mark_completed_twice_overwrites (t : WorkflowTask) (t1 t2 : ℚ)
    (h : t1 < t2) :
    (t.mark_completed t1).completed_at = some t1 ∧
    ((t.mark_completed t1).mark_completed t2).completed_at = some t2 ∧
    t1 < t2 :=
  ⟨rfl, rfl, h⟩

/-- Witness for C6 at a concrete task and the timestamps 1 < 2. -/
theorem mark_completed_twice_overwrites_witness :
    ((WorkflowTask.init "Update docs" TaskPriority.low
        "Documentation update" 0).mark_completed 1).completed_at = some 1 ∧
    (((WorkflowTask.init "Update docs" TaskPriority.low
        "Documentation update" 0).mark_completed 1).mark_completed 2).completed_at
      = some 2 ∧
    (1 : ℚ) < 2 :=
  mark_completed_twice_overwrites _ 1 2 (by norm_num)

/-- C7: for any fixed task, the processing_time reported by the Urgent
variant is strictly less than the Standard variant's and strictly less than
the Background variant's, because only Urgent adds zero latency (in the model
clock, `time.sleep(d)` takes exactly `d` and everything else takes zero
time; each variant runs on a freshly constructed processor). -/
theorem urgent_strictly_fastest (task : WorkflowTask) (c₁ c₂ c₃ : ℚ) :
    ∃ tu ts tb : ℚ,
      List.lookup "processing_time"
          (UrgentTaskProcessor.process_task TaskTimer.init task c₁).1
        = some (PyVal.float tu) ∧
      List.lookup "processing_time"
          (StandardTaskProcessor.process_task TaskTimer.init task c₂).1
        = some (PyVal.float ts) ∧
      List.lookup "processing_time"
          (BackgroundTaskProcessor.process_task TaskTimer.init task c₃).1
        = some (PyVal.float tb) ∧
      tu < ts ∧ tu < tb := by
  refine ⟨c₁ - c₁, c₂ + 1 - c₂, c₃ + 1 / 10 - c₃, rfl, rfl, rfl, ?_, ?_⟩ <;>
    linarith

/-- C9 counterexample: for the Standard variant on a task with an empty
title, the result's `validation_passed` entry is the string `''`: it is not
a boolean at all. -/
theorem result_validation_passed_not_boolean :
    List.lookup "validation_passed"
      (StandardTaskProcessor.process_task TaskTimer.init
        (WorkflowTask.init "" TaskPriority.low "Documentation update" 0) 0).1
      = some (PyVal.str "") ∧
    PyVal.str "" ≠ PyVal.bool true ∧ PyVal.str "" ≠ PyVal.bool false :=
  ⟨rfl, by decide, by decide⟩

/-- C9 amended: for a freshly constructed processor of any variant, the
result is a mapping with exactly the four keys `status`, `processing_time`,
`strategy_used`, `validation_passed`; `processing_time` is a non-negative
float; `strategy_used` is the variant's name; and `validation_passed` is a
boolean except for the Standard variant on an empty title, where it is the
empty string (a falsy non-boolean). -/
theorem result_shape (v : Variant) (task : WorkflowTask) (c : ℚ) :
    ((v.process_task TaskTimer.init task c).1.map Prod.fst
      = ["status", "processing_time", "strategy_used", "validation_passed"]) ∧
    (∃ q : ℚ, List.lookup "processing_time"
        (v.process_task TaskTimer.init task c).1 = some (PyVal.float q) ∧
      0 ≤ q) ∧
    List.lookup "strategy_used" (v.process_task TaskTimer.init task c).1
      = some (PyVal.str v.strategy_name) ∧
    (if v = Variant.standard ∧ task.title = "" then
      List.lookup "validation_passed" (v.process_task TaskTimer.init task c).1
        = some (PyVal.str "")
     else ∃ b : Bool,
      List.lookup "validation_passed" (v.process_task TaskTimer.init task c).1
        = some (PyVal.bool b)) := by
  cases v with
  | urgent =>
    refine ⟨rfl, ⟨c - c, rfl, by linarith⟩, rfl, ?_⟩
    rw [if_neg]
    · exact ⟨UrgentTaskProcessor.validate_task task, rfl⟩
    · rintro ⟨hv, -⟩
      exact absurd hv (by decide)
  | standard =>
    refine ⟨rfl, ⟨c + 1 - c, rfl, by linarith⟩, rfl, ?_⟩
    have h : List.lookup "validation_passed"
        (Variant.standard.process_task TaskTimer.init task c).1
        = some (StandardTaskProcessor.validate_task task) := rfl
    by_cases ht : task.title = ""
    · rw [if_pos ⟨rfl, ht⟩, h]
      simp [StandardTaskProcessor.validate_task, ht]
    · rw [if_neg (by rintro ⟨-, hcontra⟩; exact ht hcontra), h]
      exact ⟨decide (3 ≤ task.title.length),
        by simp [StandardTaskProcessor.validate_task, ht]⟩
  | background =>
    refine ⟨rfl, ⟨c + 1 / 10 - c, rfl, by linarith⟩, rfl, ?_⟩
    rw [if_neg]
    · exact ⟨BackgroundTaskProcessor.validate_task task, rfl⟩
    · rintro ⟨hv, -⟩
      exact absurd hv (by decide)

/-- C2: `execute_task` raises `ValueError('No strategy set')` exactly when no
strategy is stored or the stored strategy's `str()` name is not one of the
recognized variant names; otherwise it returns exactly the dictionary
produced by `self.strategy.process_task(task)`. -/
theorem execute_task_invalid_state_iff (m : TaskManager) (task : WorkflowTask)
    (c : ℚ) :
    ((m.execute_task task c).1 = Except.error "No strategy set" ↔
      m.strategy = Option.none ∨
        ∃ p, m.strategy = some p ∧ p.name ∉ Strategies.get_values) ∧
    (∀ p, m.strategy = some p → p.name ∈ Strategies.get_values →
      (m.execute_task task c).1
        = Except.ok (p.process_task p.timer task c).1) := by
  cases hm : m.strategy with
  | none =>
    constructor
    · simp [TaskManager.execute_task, hm]
    · intro p hp
      exact Option.noConfusion hp
  | some p =>
    by_cases hname : p.name ∈ Strategies.get_values
    · constructor
      · simp [TaskManager.execute_task, hm, hname]
      · intro q hq hqname
        injection hq with hq
        subst hq
        simp [TaskManager.execute_task, hm, hname]
    · constructor
      · simp [TaskManager.execute_task, hm, hname]
      · intro q hq hqname
        injection hq with hq
        subst hq
        exact absurd hqname hname

/-- Witness for C2: with an urgent processor stored, `execute_task` returns
the processor's result. -/
theorem execute_task_invalid_state_iff_witness :
    (((TaskManager.init (some (Variant.urgent.new))).execute_task
        (WorkflowTask.init "Security breach" TaskPriority.urgent
          "Critical fix needed" 0) 0).1)
      = Except.ok ((Variant.urgent.new).process_task (Variant.urgent.new).timer
          (WorkflowTask.init "Security breach" TaskPriority.urgent
            "Critical fix needed" 0) 0).1 :=
  (execute_task_invalid_state_iff (TaskManager.init (some (Variant.urgent.new)))
      (WorkflowTask.init "Security breach" TaskPriority.urgent
        "Critical fix needed" 0) 0).2
    (Variant.urgent.new) rfl (by decide)

/-- C8: once the manager holds a strategy, applying any sequence of
`set_strategy` / `execute_task` operations leaves it holding a strategy:
there is no transition back to the no-strategy state. -/
theorem strategy_never_cleared (m : TaskManager)
    (h : (m.strategy).isSome = true) (ops : List ManagerOp) :
    (((TaskManager.runOps m ops)).strategy).isSome = true := by
  induction ops generalizing m with
  | nil => exact h
  | cons op rest ih =>
    refine ih _ ?_
    cases op with
    | set_strategy p => rfl
    | execute_task task c =>
      show ((m.execute_task task c).2.2.2.strategy).isSome = true
      cases hm : m.strategy with
      | none =>
        rw [hm] at h
        exact absurd h (by simp)
      | some p =>
        by_cases hname : p.name ∈ Strategies.get_values <;>
          simp [TaskManager.execute_task, hm, hname]

/-- Witness for C8 on a concrete manager and operation sequence. -/
theorem strategy_never_cleared_witness :
    ((TaskManager.runOps (TaskManager.init (some (Variant.urgent.new)))
      [ManagerOp.set_strategy (Variant.background.new),
        ManagerOp.execute_task
          (WorkflowTask.init "Update docs" TaskPriority.low
            "Documentation update" 0) 0]).strategy).isSome = true :=
  strategy_never_cleared (TaskManager.init (some (Variant.urgent.new))) rfl
    [ManagerOp.set_strategy (Variant.background.new),
      ManagerOp.execute_task
        (WorkflowTask.init "Update docs" TaskPriority.low
          "Documentation update" 0) 0]

/-- C10: `process_task` of every variant changes only the task's
`completed_at` field — `title`, `priority`, `description` and `created_at`
are unchanged — and `execute_task` leaves the manager's stored strategy
reference unchanged (same object: same name and same `process_task`
behaviour; only its inherited timer state mutates in place). -/
theorem process_task_frame (v : Variant) (tm : TaskTimer) (task : WorkflowTask)
    (c : ℚ) (m : TaskManager) :
    ((v.process_task tm task c).2.1).title = task.title ∧
    ((v.process_task tm task c).2.1).priority = task.priority ∧
    ((v.process_task tm task c).2.1).description = task.description ∧
    ((v.process_task tm task c).2.1).created_at = task.created_at ∧
    Option.map TaskProcessorObj.name ((m.execute_task task c).2.2.2).strategy
      = Option.map TaskProcessorObj.name m.strategy ∧
    Option.map TaskProcessorObj.process_task
        ((m.execute_task task c).2.2.2).strategy
      = Option.map TaskProcessorObj.process_task m.strategy := by
  refine ⟨by cases v <;> rfl, by cases v <;> rfl, by cases v <;> rfl,
    by cases v <;> rfl, ?_, ?_⟩ <;>
  · cases hm : m.strategy with
    | none => simp [TaskManager.execute_task, hm]
    | some p =>
      by_cases hname : p.name ∈ Strategies.get_values <;>
        simp [TaskManager.execute_task, hm, hname]
